import Mathlib

/-!
Verification of the `ai-assistant` core of mimelator/wavelength-arch-decoder.

Shallow embedding of `src/ai-assistant/src/query_parser.py`,
`src/ai-assistant/src/context_builder.py` and
`src/ai-assistant/src/refactoring_analyzer.py`.

Modelling conventions:
* Python dict fields that the code reads with `.get(...)` are `Option`-valued
  record fields; `none` stands for "key absent or value None".
* Python `a or b` on strings (first truthy wins, `None` and `""` are falsy)
  is `pyOr`.
* The external HTTP client is a record of functions returning `Except String`;
  an `Except.error` models a raised exception at that fetch.
* `str.lower()` is modelled at ASCII precision (`Char.toLower`), and the
  `\w` character class of the tokenizing regexes at ASCII precision as well;
  every string the claims touch is ASCII.
* Python's `list(set(xs))` is modelled as `List.dedup` (membership-equivalent;
  the original iteration order of a Python set is unspecified anyway).
-/

/-- ASCII rendering of Python `str.lower()`. -/
def pyLower (s : String) : String := ⟨s.data.map Char.toLower⟩

/-- Python `a or b` for two optional strings: `a` wins iff it is truthy
(present and nonempty), else `b` is returned. -/
def pyOr (a b : Option String) : Option String :=
  match a with
  | some s => if s = "" then b else some s
  | none => b

/-- `containsSub needle hay`: does `needle` occur contiguously in `hay`?
(Substring test used for Python's `in` operator on strings.) -/
def containsSub (needle : List Char) : List Char → Bool
  | [] => needle.isEmpty
  | c :: rest => needle.isPrefixOf (c :: rest) || containsSub needle rest

/-- Python `pat in hay` on strings. -/
def strContains (hay pat : String) : Bool := containsSub pat.data hay.data

/-- `re.findall(r'"([^"]+)"', query)`: the scanner state is `none` outside
quotes and `some acc` (reversed chars) inside a candidate quoted group.
A closing quote over an empty group fails the `[^"]+` requirement, and the
regex engine then retries that very quote as a new opening quote. -/
def findQuotedAux : List Char → Option (List Char) → List String
  | [], _ => []
  | c :: rest, none =>
      if c = '"' then findQuotedAux rest (some []) else findQuotedAux rest none
  | c :: rest, some acc =>
      if c = '"' then
        if acc.isEmpty then findQuotedAux rest (some [])
        else ⟨acc.reverse⟩ :: findQuotedAux rest none
      else findQuotedAux rest (some (c :: acc))

/-- All groups captured by `re.findall(r'"([^"]+)"', ·)`. -/
def findQuoted (l : List Char) : List String := findQuotedAux l none

/-- Word characters of the regexes in `query_parser.py` (`[a-zA-Z0-9_]`). -/
def isWordChar (c : Char) : Bool := c.isAlphanum || c = '_'

/-- Maximal runs of word characters; auxiliary scanner with the current run
(reversed) as the accumulator. -/
def wordRunsAux : List Char → List Char → List String
  | [], acc => if acc.isEmpty then [] else [⟨acc.reverse⟩]
  | c :: rest, acc =>
      if isWordChar c then wordRunsAux rest (c :: acc)
      else if acc.isEmpty then wordRunsAux rest []
      else ⟨acc.reverse⟩ :: wordRunsAux rest []

/-- Maximal runs of word characters in the input. -/
def wordRuns (l : List Char) : List String := wordRunsAux l []

/-- `re.findall(r'\b([a-z][a-zA-Z0-9_]*)\b', query)`: a maximal word run is
captured iff it starts with a lowercase ASCII letter (the leading `\b` rules
out starting the match inside a run, the trailing `\b` is automatic for a
greedy match of word characters). -/
def lowerTokens (l : List Char) : List String :=
  (wordRuns l).filter fun r =>
    match r.data with
    | c :: _ => c.isLower
    | [] => false

/-- `QueryParser`'s stop-word list (`common_words` in `_extract_entities`). -/
def commonWords : List String :=
  ["what", "which", "show", "list", "the", "are", "is", "a", "an", "to",
   "for", "with", "from"]

/-- `QueryParser._extract_entities`: quoted groups, then identifier-shaped
lowercase tokens, stop-words removed case-insensitively, deduplicated. -/
def extractEntities (query : String) : List String :=
  let entities := findQuoted query.data ++ lowerTokens query.data
  (entities.filter fun e => !commonWords.contains (pyLower e)).dedup

/-- `QueryParser._extract_topics`' controlled vocabulary. -/
def topicKeywords : List String :=
  ["authentication", "auth", "storage", "database", "api",
   "firebase", "aws", "stripe", "payment", "email", "notification",
   "user", "admin", "file", "upload", "download", "session",
   "token", "security", "encryption", "validation"]

/-- `QueryParser._extract_topics`: vocabulary terms occurring as substrings
of the lowercased query, in vocabulary order. -/
def extractTopics (query : String) : List String :=
  topicKeywords.filter fun keyword => strContains (pyLower query) keyword

/-- The `QueryIntent` enum of `query_parser.py`. It has exactly these six
members; in particular there is no `FIND_TESTS` and no `FIND_DOCUMENTATION`
member (`context_builder.py` nevertheless references both). -/
inductive QueryIntent where
  | FIND_FUNCTIONS
  | LIST_SERVICES
  | FIND_DEPENDENCIES
  | REFACTORING_IMPACT
  | TOOL_DISCOVERY
  | GENERAL
deriving DecidableEq, Repr

/-- One regex of the `INTENT_PATTERNS` table: every pattern in the table is
either a literal string or two literals joined by a single `.*`. -/
inductive Pat where
  | lit : String → Pat
  | seq : String → String → Pat
deriving DecidableEq, Repr

/-- `gapScan b s`: can `b` be matched in `s` after skipping a (possibly
empty) gap of non-newline characters?  This is `.*b` anchored at the start
of `s`, with `.` not matching `'\n'` (Python `re` default). -/
def gapScan (b : List Char) : List Char → Bool
  | [] => b.isEmpty
  | c :: t => b.isPrefixOf (c :: t) || (c ≠ '\n' && gapScan b t)

/-- `re.search` of the two-literal pattern `a.*b` in `s`: some suffix of `s`
starts with `a` followed by a newline-free gap and then `b`. -/
def seqSearch (a b : List Char) : List Char → Bool
  | [] => a.isEmpty && b.isEmpty
  | c :: t =>
      (a.isPrefixOf (c :: t) && gapScan b ((c :: t).drop a.length)) ||
        seqSearch a b t

/-- `re.search(pattern, q)` for the pattern shapes of the table. -/
def patMatch (q : String) : Pat → Bool
  | .lit s => containsSub s.data q.data
  | .seq a b => seqSearch a.data b.data q.data

/-- `QueryParser.INTENT_PATTERNS`, in declaration order (Python dicts
preserve insertion order). -/
def INTENT_PATTERNS : List (QueryIntent × List Pat) :=
  [(.FIND_FUNCTIONS,
     [.lit "what functions", .seq "show" "functions", .seq "list" "functions",
      .seq "functions" "available", .seq "how" "function",
      .lit "which functions"]),
   (.LIST_SERVICES,
     [.lit "what services", .lit "which services", .seq "services" "used",
      .seq "show" "services", .seq "list" "services"]),
   (.FIND_DEPENDENCIES,
     [.lit "what dependencies", .lit "which dependencies",
      .seq "dependencies" "used", .seq "list" "dependencies"]),
   (.REFACTORING_IMPACT,
     [.lit "what would break", .seq "what" "impact", .lit "refactor",
      .lit "rename", .lit "remove", .lit "change", .seq "can i" "remove",
      .seq "can i" "rename", .seq "safe" "remove"]),
   (.TOOL_DISCOVERY,
     [.lit "what tools", .lit "build tools", .seq "test" "tools",
      .lit "linter", .lit "which tools"])]

/-- The intent-resolution loop of `QueryParser.parse`: the running `intent`
variable starts at `GENERAL`; each table row overwrites it when one of its
patterns matches, and the outer loop breaks as soon as it is no longer
`GENERAL`. -/
def intentLoop (q : String) : List (QueryIntent × List Pat) → QueryIntent → QueryIntent
  | [], intent => intent
  | (intent_type, patterns) :: rest, intent =>
      let intent' := if patterns.any (patMatch q) then intent_type else intent
      if intent' ≠ QueryIntent.GENERAL then intent' else intentLoop q rest intent'

/-- The result record of `QueryParser.parse`. -/
structure ParsedQuery where
  intent : QueryIntent
  entities : List String
  topics : List String
  original_query : String
deriving DecidableEq, Repr

/-- `QueryParser.parse` (the `classify` operation of the spec). -/
def parse (query : String) : ParsedQuery :=
  let query_lower := pyLower query
  let intent := intentLoop query_lower INTENT_PATTERNS QueryIntent.GENERAL
  { intent := intent
    entities := extractEntities query
    topics := extractTopics query
    original_query := query }

/-- A record of `GET /code/calls` (the call-edge dicts scanned by
`RefactoringAnalyzer._find_callers`). -/
structure CallEdge where
  target_id : Option String := none
  target_element_id : Option String := none
  source_id : Option String := none
  source_element_id : Option String := none
  source_name : Option String := none
  source_function : Option String := none
  source_file_path : Option String := none
  source_file : Option String := none
deriving DecidableEq, Repr

/-- A relationship record returned by `get_code_relationships`. -/
structure Relationship where
  relationship_type : Option String := none
  target_type : Option String := none
  target_id : Option String := none
  target_name : Option String := none
deriving DecidableEq, Repr

/-- A caller dict as built by `RefactoringAnalyzer._find_callers`. -/
structure Caller where
  id : Option String := none
  name : Option String := none
  file_path : Option String := none
  relationship : String := "calls"
  risk : String := "high"
deriving DecidableEq, Repr

/-- A callee dict as built by `RefactoringAnalyzer._find_callees`. -/
structure Callee where
  id : Option String := none
  name : Option String := none
  relationship : String := "called_by"
deriving DecidableEq, Repr

/-- A call-chain dict as built by `RefactoringAnalyzer._build_call_chains`.
The entries of `path` are the `caller.get("name", "unknown")` values; the
`"name"` key is always present in a caller dict (possibly holding `None`),
so such an entry is the optional name itself, never `"unknown"`. -/
structure Chain where
  path : List (Option String)
  depth : Nat
deriving DecidableEq, Repr

/-- The `impact` dict of `RefactoringAnalyzer.analyze`.
`affected_services` and `affected_dependencies` are initialised empty and
never extended by any code path. -/
structure Impact where
  affected_functions : List Caller := []
  affected_services : List String := []
  affected_dependencies : List String := []
  call_chains : List Chain := []
  risk_level : String := "low"
  recommendations : List String := []
deriving DecidableEq, Repr

/-- A code-element record returned by `get_code_elements`. -/
structure CodeElement where
  id : Option String := none
  name : Option String := none
  element_type : Option String := none
  file_path : Option String := none
  signature : Option String := none
  line : Option Nat := none
  language : Option String := none
deriving DecidableEq, Repr

/-- A service record returned by `get_services`. -/
structure Service where
  id : Option String := none
  name : Option String := none
  provider : Option String := none
  service_type : Option String := none
  file_path : Option String := none
deriving DecidableEq, Repr

/-- A dependency record returned by `get_dependencies`. -/
structure Dependency where
  id : Option String := none
  name : Option String := none
  version : Option String := none
  package_manager : Option String := none
deriving DecidableEq, Repr

/-- A tool record returned by `get_tools`. -/
structure Tool where
  id : Option String := none
  name : Option String := none
  tool_type : Option String := none
  config_file : Option String := none
deriving DecidableEq, Repr

/-- A test record returned by `get_tests`. -/
structure TestRec where
  id : Option String := none
  name : Option String := none
  test_framework : Option String := none
  test_type : Option String := none
  file_path : Option String := none
  line_number : Option Nat := none
  language : Option String := none
  suite_name : Option String := none
  signature : Option String := none
deriving DecidableEq, Repr

/-- A documentation record returned by `get_documentation`. -/
structure DocRec where
  id : Option String := none
  file_name : Option String := none
  file_path : Option String := none
  doc_type : Option String := none
  title : Option String := none
  description : Option String := none
  word_count : Option Nat := none
  line_count : Option Nat := none
  has_code_examples : Option Bool := none
  has_api_references : Option Bool := none
  has_diagrams : Option Bool := none
  content_preview : Option String := none
deriving DecidableEq, Repr

/-- Repository metadata (`get_repository`, and the placeholder dict
substituted by `ContextBuilder.build` on a failed fetch). -/
structure RepoInfo where
  id : Option String := none
  name : Option String := none
deriving DecidableEq, Repr

/-- The graph payload of `get_graph` (opaque to all claims). -/
structure GraphData where
  nodes : List String := []
  edges : List String := []
deriving DecidableEq, Repr

/-- The external `ArchitectureDecoderClient`, one function per remote
endpoint; `Except.error` models a raised exception at that fetch. -/
structure Client where
  get_repository : String → Except String RepoInfo
  get_code_elements : String → Except String (List CodeElement)
  get_code_relationships : String → Option String → Except String (List Relationship)
  get_code_calls : String → Except String (List CallEdge)
  get_services : String → Except String (List Service)
  get_dependencies : String → Except String (List Dependency)
  get_tools : String → Except String (List Tool)
  get_tests : String → Except String (List TestRec)
  get_documentation : String → Except String (List DocRec)
  get_graph : String → Except String GraphData

/-- `RefactoringAnalyzer._find_callers`: scan all call edges of the
repository and keep those whose callee matches `element_id`; its own
`try/except` turns a failed `get_code_calls` fetch into `[]`. -/
def findCallers (client : Client) (repo_id : String) (element_id : Option String) :
    List Caller :=
  match client.get_code_calls repo_id with
  | .error _ => []
  | .ok calls =>
      (calls.filter fun call =>
          call.target_id == element_id || call.target_element_id == element_id).map
        fun call =>
          { id := pyOr call.source_id call.source_element_id
            name := pyOr call.source_name call.source_function
            file_path := pyOr call.source_file_path call.source_file
            relationship := "calls"
            risk := "high" }

/-- `RefactoringAnalyzer._find_callees`: project call-type relationships
(or those targeting a code element). -/
def findCallees (relationships : List Relationship) : List Callee :=
  relationships.filterMap fun rel =>
    if rel.relationship_type == some "calls" || rel.target_type == some "code_element" then
      some { id := rel.target_id, name := rel.target_name, relationship := "called_by" }
    else none

/-- `RefactoringAnalyzer._traverse_up`: follow the first caller upward,
returning once the accumulated path exceeds 5 entries or no caller exists.
Each recursive call grows `path` by one entry, so `6 - path.length` is a
decreasing measure: this is the termination argument for the source's
depth-ceiling design. -/
def traverseUp (client : Client) (repo_id : String) (element_id : Option String)
    (path : List (Option String)) : List (Option String) :=
  if _h : path.length > 5 then path
  else
    match findCallers client repo_id element_id with
    | [] => path
    | next_caller :: _ =>
        traverseUp client repo_id next_caller.id (path ++ [next_caller.name])
termination_by 6 - path.length
decreasing_by
  simp only [List.length_append, List.length_cons, List.length_nil]
  omega

/-- Fuel-indexed variant of `traverseUp`, recursing structurally on the
fuel; `none` means the fuel ran out before the source recursion returned. -/
def traverseUpF (client : Client) (repo_id : String) :
    Nat → Option String → List (Option String) → Option (List (Option String))
  | 0, _, _ => none
  | fuel + 1, element_id, path =>
      if path.length > 5 then some path
      else
        match findCallers client repo_id element_id with
        | [] => some path
        | next_caller :: _ =>
            traverseUpF client repo_id fuel next_caller.id (path ++ [next_caller.name])

/-- `RefactoringAnalyzer._build_call_chains`: at most the first 5 callers
are each traversed upward; a nonempty chain is recorded with its length as
`depth`. The `element_id` parameter is unused, exactly as in the source. -/
def buildCallChains (client : Client) (repo_id : String) (_element_id : Option String)
    (callers : List Caller) : List Chain :=
  (callers.take 5).filterMap fun caller =>
    let chain := traverseUp client repo_id caller.id [caller.name]
    if chain.isEmpty then none else some { path := chain, depth := chain.length }

/-- Python `max(l, default=0)` on naturals. -/
def pyMax (l : List Nat) : Nat := l.foldl max 0

/-- `RefactoringAnalyzer._assess_risk`. -/
def assessRisk (impact : Impact) : String :=
  let affected_count := impact.affected_functions.length
  let chain_depth := pyMax (impact.call_chains.map fun c => c.depth)
  if affected_count > 10 || chain_depth > 4 then "high"
  else if affected_count > 5 || chain_depth > 2 then "medium"
  else "low"

/-- `RefactoringAnalyzer._generate_recommendations`, with the successive
`append` calls rendered as list concatenations in the same order. -/
def generateRecommendations (impact : Impact) : List String :=
  let recommendations : List String := []
  let affected_count := impact.affected_functions.length
  let recommendations :=
    if affected_count > 0 then
      recommendations ++
        ["Update " ++ toString affected_count ++ " affected function(s) before refactoring"]
    else recommendations
  let recommendations :=
    if impact.risk_level == "high" then
      recommendations ++ ["Consider creating a wrapper function first"] ++
        ["Add deprecation warnings before removal"]
    else recommendations
  recommendations ++ ["Run full test suite after changes"] ++ ["Update documentation"]

/-- The body of the per-target `for` loop of `RefactoringAnalyzer.analyze`:
the `try` block catches a failed `get_code_relationships` fetch (that target
then contributes nothing); every other fetch inside the block is already
guarded downstream, so nothing else can raise. -/
def analyzeStep (client : Client) (repository_id : String) (impact : Impact)
    (element_id : String) : Impact :=
  match client.get_code_relationships repository_id (some element_id) with
  | .error _ => impact
  | .ok relationships =>
      let callers := findCallers client repository_id (some element_id)
      let _callees := findCallees relationships
      let chains := buildCallChains client repository_id (some element_id) callers
      { impact with
          affected_functions := impact.affected_functions ++ callers
          call_chains := impact.call_chains ++ chains }

/-- `RefactoringAnalyzer.analyze`: the per-target loop, then risk
assessment, then recommendations (each reading the dict mutated so far). -/
def analyze (client : Client) (repository_id : String)
    (target_elements : List String) : Impact :=
  let impact0 : Impact :=
    { affected_functions := [], affected_services := [], affected_dependencies := []
      call_chains := [], risk_level := "low", recommendations := [] }
  let impact1 := target_elements.foldl (analyzeStep client repository_id) impact0
  let impact2 := { impact1 with risk_level := assessRisk impact1 }
  { impact2 with recommendations := generateRecommendations impact2 }

/-- A source dict emitted by `ContextBuilder`. The Python dicts carry a
different key set per `type`; this record is the union of those key sets,
with `none`/`[]` for the keys a given construction site does not set. -/
structure Source where
  type : String := ""
  id : Option String := none
  name : Option String := none
  file_path : Option String := none
  signature : Option String := none
  line : Option Nat := none
  language : Option String := none
  relationships : List Relationship := []
  provider : Option String := none
  service_type : Option String := none
  version : Option String := none
  package_manager : Option String := none
  tool_type : Option String := none
  config_file : Option String := none
  test_framework : Option String := none
  file_name : Option String := none
  title : Option String := none
deriving DecidableEq, Repr

/-- The `related` dict (`_get_related_entities` result; the bare `{}`
returned by the other strategies is both lists empty). -/
structure Related where
  services : List (Option String) := []
  dependencies : List (Option String) := []
deriving DecidableEq, Repr

/-- The `{"sources": ..., "related": ...}` part a strategy returns. -/
structure ContextPart where
  sources : List Source := []
  related : Related := {}
deriving DecidableEq, Repr

/-- The full context dict assembled by `ContextBuilder.build`. -/
structure Context where
  repository_id : String
  repository : RepoInfo
  sources : List Source
  related : Related
  graph : Option GraphData
deriving DecidableEq, Repr

/-- `ContextBuilder._get_related_entities`: collect distinct target names of
service- and dependency-typed relationships attached to the sources.
Python accumulates into `set`s; here first-occurrence deduplication. -/
def getRelatedEntities (sources : List Source) : Related :=
  { services :=
      (sources.flatMap fun source =>
        source.relationships.filterMap fun rel =>
          if rel.target_type == some "service" then some rel.target_name else none).dedup
    dependencies :=
      (sources.flatMap fun source =>
        source.relationships.filterMap fun rel =>
          if rel.target_type == some "service" then none
          else if rel.target_type == some "dependency" then some rel.target_name
          else none).dedup }

/-- The dependency-directory markers of `_build_function_context`. -/
def depDirs : List String :=
  ["venv/", "node_modules/", ".venv/", "__pycache__/", "site-packages/"]

/-- The extra stop-word list of `_build_function_context` (distinct from the
tokenizer's `commonWords`). -/
def functionCommonWords : List String :=
  ["functions", "function", "available", "list", "show", "what", "which", "are", "is"]

/-- The per-element filter of `_build_function_context`: only functions,
only elements with a truthy `file_path`, no vendor directories, then the
topic/entity matching rule. -/
def functionElementKeep (topics filtered_entities : List String)
    (element : CodeElement) : Bool :=
  let element_type := pyLower (element.element_type.getD "")
  if element_type ≠ "function" then false
  else
    let file_path := element.file_path.getD ""
    if file_path = "" then false
    else
      let file_path_lower := pyLower file_path
      if depDirs.any (fun dep_dir => strContains file_path_lower dep_dir) then false
      else
        let name := pyLower (element.name.getD "")
        if !topics.isEmpty then
          topics.any fun topic =>
            strContains name (pyLower topic) || strContains file_path_lower (pyLower topic)
        else if !filtered_entities.isEmpty then
          filtered_entities.any fun entity => strContains name (pyLower entity)
        else true

/-- `ContextBuilder._build_function_context`. -/
def buildFunctionContext (client : Client) (repo_id : String)
    (topics entities : List String) (max_results : Nat) : ContextPart :=
  match client.get_code_elements repo_id with
  | .error _ => {}
  | .ok code_elements =>
      let filtered_entities :=
        entities.filter fun e => !functionCommonWords.contains (pyLower e)
      let filtered := code_elements.filter (functionElementKeep topics filtered_entities)
      let sources := (filtered.take max_results).map fun element =>
        let relationships :=
          match client.get_code_relationships repo_id element.id with
          | .error _ => []
          | .ok r => r
        { type := "code_element", id := element.id, name := element.name
          signature := element.signature, file_path := element.file_path
          line := element.line, language := element.language
          relationships := relationships : Source }
      { sources := sources, related := getRelatedEntities sources }

/-- `ContextBuilder._build_service_context`. -/
def buildServiceContext (client : Client) (repo_id : String)
    (topics : List String) (max_results : Nat) : ContextPart :=
  match client.get_services repo_id with
  | .error _ => {}
  | .ok services =>
      let filtered :=
        if !topics.isEmpty then
          services.filter fun s =>
            topics.any fun topic =>
              strContains (pyLower (s.name.getD "")) (pyLower topic) ||
                strContains (pyLower (s.provider.getD "")) (pyLower topic)
        else services
      { sources := (filtered.take max_results).map fun s =>
          { type := "service", id := s.id, name := s.name, provider := s.provider
            service_type := s.service_type, file_path := s.file_path } }

/-- `ContextBuilder._build_dependency_context`. -/
def buildDependencyContext (client : Client) (repo_id : String)
    (topics : List String) (max_results : Nat) : ContextPart :=
  match client.get_dependencies repo_id with
  | .error _ => {}
  | .ok dependencies =>
      let filtered :=
        if !topics.isEmpty then
          dependencies.filter fun d =>
            topics.any fun topic => strContains (pyLower (d.name.getD "")) (pyLower topic)
        else dependencies
      { sources := (filtered.take max_results).map fun d =>
          { type := "dependency", id := d.id, name := d.name, version := d.version
            package_manager := d.package_manager } }

/-- `ContextBuilder._build_tool_context`. -/
def buildToolContext (client : Client) (repo_id : String) (max_results : Nat) :
    ContextPart :=
  match client.get_tools repo_id with
  | .error _ => {}
  | .ok tools =>
      { sources := (tools.take max_results).map fun t =>
          { type := "tool", id := t.id, name := t.name, tool_type := t.tool_type
            config_file := t.config_file } }

/-- The "Add relevant code elements" loop of `_build_general_context`. -/
def generalCodeSources (topics entities : List String) (max_results : Nat)
    (code_elements : List CodeElement) : List Source :=
  (code_elements.take (max_results / 3)).filterMap fun element =>
    if !topics.isEmpty || !entities.isEmpty then
      let name := pyLower (element.name.getD "")
      if topics.any (fun topic => strContains name (pyLower topic)) ||
          entities.any (fun entity => strContains name (pyLower entity)) then
        some { type := "code_element", id := element.id, name := element.name
               file_path := element.file_path : Source }
      else none
    else
      some { type := "code_element", id := element.id, name := element.name
             file_path := element.file_path : Source }

/-- The "Add relevant services" loop of `_build_general_context` (no
topic/entity filter in the source). -/
def generalServiceSources (max_results : Nat) (services : List Service) : List Source :=
  (services.take (max_results / 3)).map fun service =>
    { type := "service", id := service.id, name := service.name
      provider := service.provider : Source }

/-- The "Add relevant dependencies" loop of `_build_general_context` (no
topic/entity filter in the source). -/
def generalDependencySources (max_results : Nat) (dependencies : List Dependency) :
    List Source :=
  (dependencies.take (max_results / 3)).map fun dep =>
    { type := "dependency", id := dep.id, name := dep.name
      version := dep.version : Source }

/-- The "Add relevant tests if available" block of `_build_general_context`. -/
def generalTestSources (topics entities : List String) (max_results : Nat)
    (tests : List TestRec) : List Source :=
  if tests.isEmpty then []
  else (tests.take (max_results / 5)).filterMap fun test =>
    if !topics.isEmpty || !entities.isEmpty then
      let name := pyLower (test.name.getD "")
      if topics.any (fun topic => strContains name (pyLower topic)) ||
          entities.any (fun entity => strContains name (pyLower entity)) then
        some { type := "test", id := test.id, name := test.name
               test_framework := test.test_framework
               file_path := test.file_path : Source }
      else none
    else
      some { type := "test", id := test.id, name := test.name
             test_framework := test.test_framework
             file_path := test.file_path : Source }

/-- The "Add relevant documentation if available" block of
`_build_general_context`. -/
def generalDocSources (topics entities : List String) (max_results : Nat)
    (docs : List DocRec) : List Source :=
  if docs.isEmpty then []
  else (docs.take (max_results / 5)).filterMap fun doc =>
    if !topics.isEmpty || !entities.isEmpty then
      let name := pyLower (doc.file_name.getD "")
      let title := pyLower (doc.title.getD "")
      if topics.any (fun topic =>
            strContains name (pyLower topic) || strContains title (pyLower topic)) ||
          entities.any (fun entity =>
            strContains name (pyLower entity) || strContains title (pyLower entity)) then
        some { type := "documentation", id := doc.id, file_name := doc.file_name
               file_path := doc.file_path, title := doc.title : Source }
      else none
    else
      some { type := "documentation", id := doc.id, file_name := doc.file_name
             file_path := doc.file_path, title := doc.title : Source }

/-- `ContextBuilder._build_general_context`. One `try` block wraps the
code-element, service and dependency fetches together (its `except` returns
the empty part), while the test and documentation fetches each sit in their
own nested `try` degrading to `[]`. -/
def buildGeneralContext (client : Client) (repo_id : String)
    (topics entities : List String) (max_results : Nat) : ContextPart :=
  match client.get_code_elements repo_id with
  | .error _ => {}
  | .ok code_elements =>
  match client.get_services repo_id with
  | .error _ => {}
  | .ok services =>
  match client.get_dependencies repo_id with
  | .error _ => {}
  | .ok dependencies =>
  let tests := match client.get_tests repo_id with | .ok t => t | .error _ => []
  let docs := match client.get_documentation repo_id with | .ok d => d | .error _ => []
  { sources :=
      generalCodeSources topics entities max_results code_elements ++
      generalServiceSources max_results services ++
      generalDependencySources max_results dependencies ++
      generalTestSources topics entities max_results tests ++
      generalDocSources topics entities max_results docs }

/-- `ContextBuilder.build`: guarded repository fetch, then the intent
dispatch. The `elif` chain tests `FIND_FUNCTIONS`, `LIST_SERVICES`,
`FIND_DEPENDENCIES`, `TOOL_DISCOVERY` in that order; the next guard
evaluates `QueryIntent.FIND_TESTS`, a member the `QueryIntent` enum of
`query_parser.py` does not define, so for every remaining intent
(`REFACTORING_IMPACT` and `GENERAL`) the dispatch raises `AttributeError`
before any strategy runs. -/
def build (client : Client) (repository_id : String) (intent : ParsedQuery)
    (max_results : Nat) (include_graph : Bool) : Except String Context :=
  let repository :=
    match client.get_repository repository_id with
    | .ok repo_info => repo_info
    | .error _ => { id := some repository_id, name := some "Unknown" }
  let part : Except String ContextPart :=
    match intent.intent with
    | .FIND_FUNCTIONS =>
        .ok (buildFunctionContext client repository_id intent.topics intent.entities
          max_results)
    | .LIST_SERVICES =>
        .ok (buildServiceContext client repository_id intent.topics max_results)
    | .FIND_DEPENDENCIES =>
        .ok (buildDependencyContext client repository_id intent.topics max_results)
    | .TOOL_DISCOVERY =>
        .ok (buildToolContext client repository_id max_results)
    | _ => .error "AttributeError: FIND_TESTS"
  match part with
  | .error e => .error e
  | .ok part =>
      let graph :=
        if include_graph then
          some (match client.get_graph repository_id with
                | .ok g => g
                | .error _ => {})
        else none
      .ok { repository_id := repository_id, repository := repository
            sources := part.sources, related := part.related, graph := graph }

/-- The contribution of one target to `affected_functions`: empty when the
relationships fetch for that target fails, its callers otherwise. -/
def perTargetCallers (client : Client) (repository_id : String) (t : String) :
    List Caller :=
  match client.get_code_relationships repository_id (some t) with
  | .error _ => []
  | .ok _ => findCallers client repository_id (some t)

/-- The contribution of one target to `call_chains`: empty when the
relationships fetch for that target fails, its chains otherwise. -/
def perTargetChains (client : Client) (repository_id : String) (t : String) :
    List Chain :=
  match client.get_code_relationships repository_id (some t) with
  | .error _ => []
  | .ok _ =>
      buildCallChains client repository_id (some t)
        (findCallers client repository_id (some t))

/-- Number of sources of a given `type` tag in a source list. -/
def countType (sources : List Source) (t : String) : Nat :=
  (sources.filter fun s => s.type = t).length

/-- A client whose every fetch succeeds with empty data. -/
def emptyClient : Client :=
  { get_repository := fun _ => .ok {}
    get_code_elements := fun _ => .ok []
    get_code_relationships := fun _ _ => .ok []
    get_code_calls := fun _ => .ok []
    get_services := fun _ => .ok []
    get_dependencies := fun _ => .ok []
    get_tools := fun _ => .ok []
    get_tests := fun _ => .ok []
    get_documentation := fun _ => .ok []
    get_graph := fun _ => .ok {} }

/-- A client with a cyclic caller graph: `A` calls the target `t` and `A`
calls `A`, so the upward traversal from `A` never runs out of callers. -/
def cycClient : Client :=
  { emptyClient with
      get_code_calls := fun _ => .ok
        [{ target_id := some "t", source_id := some "A", source_name := some "A" },
         { target_id := some "A", source_id := some "A", source_name := some "A" }] }

/-- The single caller record that `cycClient`'s edges produce. -/
def callerA : Caller := { id := some "A", name := some "A" }

/-- A client with one caller `B` of the target `t` and no caller of `B`. -/
def singleCallerClient : Client :=
  { emptyClient with
      get_code_calls := fun _ => .ok
        [{ target_id := some "t", source_id := some "B", source_name := some "B" }] }

/-- The single caller record that `singleCallerClient`'s edge produces. -/
def callerB : Caller := { id := some "B", name := some "B" }

/-- A client whose relationships fetch always fails. -/
def relFailClient : Client :=
  { emptyClient with get_code_relationships := fun _ _ => .error "down" }

/-- One well-formed function element located under `src/`. -/
def exElem : CodeElement :=
  { id := some "e1", name := some "foo", element_type := some "function"
    file_path := some "src/foo.py" }

/-- A client where the services fetch fails while the code-element fetch
succeeds with one element. -/
def svcFailClient : Client :=
  { emptyClient with
      get_code_elements := fun _ => .ok [exElem]
      get_services := fun _ => .error "boom" }

/-- A client whose code-element fetch returns one good function element. -/
def funClient : Client :=
  { emptyClient with get_code_elements := fun _ => .ok [exElem] }

/-!  ## Theorems about the intent classifier  -/

/-- For a pattern table whose rows never carry the `GENERAL` tag (true of
`INTENT_PATTERNS`), the loop of `QueryParser.parse` returns the tag of the
first row containing a matching pattern, and `GENERAL` when no row does. -/
lemma intentLoop_first_match (q : String) :
    ∀ tbl : List (QueryIntent × List Pat),
      (∀ p ∈ tbl, p.1 ≠ QueryIntent.GENERAL) →
      intentLoop q tbl QueryIntent.GENERAL =
        ((tbl.find? fun p => p.2.any (patMatch q)).map Prod.fst).getD
          QueryIntent.GENERAL := by
  intro tbl
  induction tbl with
  | nil => intro _; rfl
  | cons hd rest ih =>
      intro hne
      obtain ⟨it, pats⟩ := hd
      by_cases hm : pats.any (patMatch q) = true
      · have hit : it ≠ QueryIntent.GENERAL := hne (it, pats) (List.mem_cons_self _ _)
        simp [intentLoop, hm, hit]
      · have hm' : pats.any (patMatch q) = false := by
          simpa using hm
        simp only [intentLoop, hm', if_false, ite_self]
        rw [List.find?_cons_of_neg _ (by simpa using hm'), if_neg (by simp)]
        exact ih fun p hp => hne p (List.mem_cons_of_mem _ hp)

/-- C6: `parse` resolves intent by scanning the pattern table in declaration
order and returning the tag of the first row with a pattern matching the
lowercased query; hence a query matching two categories resolves to the
earlier-declared one, and a query matching no pattern at all yields
`GENERAL` (and `parse`, a total function, never fails). -/
theorem c6_intent_first_match :
    (∀ query : String,
        (parse query).intent =
          ((INTENT_PATTERNS.find? fun p =>
              p.2.any (patMatch (pyLower query))).map Prod.fst).getD
            QueryIntent.GENERAL) ∧
    (∀ query : String,
        (INTENT_PATTERNS.all fun p => !p.2.any (patMatch (pyLower query))) = true →
        (parse query).intent = QueryIntent.GENERAL) := by
  constructor
  · intro query
    show intentLoop (pyLower query) INTENT_PATTERNS QueryIntent.GENERAL = _
    exact intentLoop_first_match _ _ (by decide)
  · intro query hnone
    show intentLoop (pyLower query) INTENT_PATTERNS QueryIntent.GENERAL = _
    rw [intentLoop_first_match _ _ (by decide)]
    have hfind : INTENT_PATTERNS.find?
        (fun p => p.2.any (patMatch (pyLower query))) = none := by
      rw [List.find?_eq_none]
      intro x hx
      have hx' := List.all_eq_true.mp hnone x hx
      simp only [Bool.not_eq_true'] at hx'
      simp [hx']
    rw [hfind]; rfl

/-- Witness for C6 at the concrete query `"hello there"`, which matches no
pattern of the table. -/
theorem c6_witness : (parse "hello there").intent = QueryIntent.GENERAL :=
  c6_intent_first_match.2 "hello there" (by decide)

/-!  ## Theorems about entity extraction  -/

/-- C4 counterexample: the query `"the"` (a double-quoted stop-word) has the
quoted substring `the`, yet `the` is not among the entities `parse`
returns — the stop-word filter runs after quoted extraction and removes it. -/
theorem c4_counterexample :
    findQuoted ("\"the\"".data) = ["the"] ∧
      "the" ∉ (parse "\"the\"").entities := by
  constructor
  · decide
  · decide

/-- C4 amended: a double-quoted substring of the query appears verbatim
among the entities returned by `parse` provided its lowercased form is not
in the stop-word list. -/
theorem c4_quoted_entity (query s : String) (hq : s ∈ findQuoted query.data)
    (hs : pyLower s ∉ commonWords) : s ∈ (parse query).entities := by
  show s ∈ extractEntities query
  unfold extractEntities
  refine List.mem_dedup.mpr (List.mem_filter.mpr ⟨List.mem_append_left _ hq, ?_⟩)
  simp [List.contains, hs]

/-- Witness for C4 at the concrete query `find "getAdminStorage" now`. -/
theorem c4_witness :
    "getAdminStorage" ∈ (parse "find \"getAdminStorage\" now").entities :=
  c4_quoted_entity _ _ (by decide) (by decide)

/-!  ## Theorems about risk scoring  -/

/-- C7: `assessRisk` yields `"high"` iff more than 10 affected functions or
a chain of depth above 4; otherwise `"medium"` iff more than 5 affected
functions or depth above 2; otherwise `"low"`; and the maximum depth of an
empty chain list is 0. -/
theorem c7_risk_scoring (impact : Impact) :
    (assessRisk impact = "high" ↔
        10 < impact.affected_functions.length ∨
          4 < pyMax (impact.call_chains.map fun c => c.depth)) ∧
    (assessRisk impact = "medium" ↔
        (impact.affected_functions.length ≤ 10 ∧
            pyMax (impact.call_chains.map fun c => c.depth) ≤ 4) ∧
          (5 < impact.affected_functions.length ∨
            2 < pyMax (impact.call_chains.map fun c => c.depth))) ∧
    (assessRisk impact = "low" ↔
        impact.affected_functions.length ≤ 5 ∧
          pyMax (impact.call_chains.map fun c => c.depth) ≤ 2) ∧
    (impact.call_chains = [] →
        pyMax (impact.call_chains.map fun c => c.depth) = 0) := by
  have hchar : assessRisk impact =
      if 10 < impact.affected_functions.length ∨
          4 < pyMax (impact.call_chains.map fun c => c.depth) then "high"
      else if 5 < impact.affected_functions.length ∨
          2 < pyMax (impact.call_chains.map fun c => c.depth) then "medium"
      else "low" := by
    unfold assessRisk
    by_cases h1 : 10 < impact.affected_functions.length <;>
      by_cases h2 : 4 < pyMax (impact.call_chains.map fun c => c.depth) <;>
      by_cases h3 : 5 < impact.affected_functions.length <;>
      by_cases h4 : 2 < pyMax (impact.call_chains.map fun c => c.depth) <;>
      simp [h1, h2, h3, h4]
  rw [hchar]
  refine ⟨?_, ?_, ?_, fun h => by rw [h]; simp [pyMax]⟩ <;>
    split_ifs with ha hb <;> simp_all <;> omega

/-- Witness for C7 at the empty impact: the maximum depth of an empty chain
list is 0. -/
theorem c7_witness : pyMax (({} : Impact).call_chains.map fun c => c.depth) = 0 :=
  (c7_risk_scoring {}).2.2.2 rfl

/-!  ## Theorems about the impact analyzer's aggregation  -/

/-- One loop iteration of `analyze` appends exactly the per-target
contributions to the accumulated impact. -/
lemma analyzeStep_eq (client : Client) (repository_id : String) (impact : Impact)
    (t : String) :
    analyzeStep client repository_id impact t =
      { impact with
          affected_functions :=
            impact.affected_functions ++ perTargetCallers client repository_id t
          call_chains := impact.call_chains ++ perTargetChains client repository_id t } := by
  unfold analyzeStep perTargetCallers perTargetChains
  cases h : client.get_code_relationships repository_id (some t) with
  | error e => simp
  | ok relationships => rfl

/-- The whole per-target loop of `analyze` appends the concatenation of the
per-target contributions, in target order. -/
lemma analyze_foldl (client : Client) (repository_id : String) :
    ∀ (ts : List String) (acc : Impact),
      ts.foldl (analyzeStep client repository_id) acc =
        { acc with
            affected_functions :=
              acc.affected_functions ++ ts.flatMap (perTargetCallers client repository_id)
            call_chains :=
              acc.call_chains ++ ts.flatMap (perTargetChains client repository_id) } := by
  intro ts
  induction ts with
  | nil => intro acc; simp
  | cons t ts ih =>
      intro acc
      rw [List.foldl_cons, analyzeStep_eq, ih]
      simp [List.flatMap_cons, List.append_assoc]

/-- C8: the recommendations list is built in fixed order — the
"Update N ..." item iff there are affected functions, the wrapper and
deprecation items iff the risk level is `"high"`, then always the two
constant closing items; and `analyze` on a single target with zero callers
yields the empty impact with `"low"` risk and exactly the two closing
recommendations. -/
theorem c8_recommendations_order :
    (∀ impact : Impact,
        generateRecommendations impact =
          (if 0 < impact.affected_functions.length then
            ["Update " ++ toString impact.affected_functions.length ++
              " affected function(s) before refactoring"]
          else []) ++
          (if impact.risk_level = "high" then
            ["Consider creating a wrapper function first",
             "Add deprecation warnings before removal"]
          else []) ++
          ["Run full test suite after changes", "Update documentation"]) ∧
    (∀ (client : Client) (repository_id target : String),
        findCallers client repository_id (some target) = [] →
        analyze client repository_id [target] =
          { affected_functions := [], affected_services := []
            affected_dependencies := [], call_chains := [], risk_level := "low"
            recommendations :=
              ["Run full test suite after changes", "Update documentation"] }) := by
  constructor
  · intro impact
    unfold generateRecommendations
    by_cases h1 : 0 < impact.affected_functions.length <;>
      by_cases h2 : impact.risk_level = "high" <;>
      simp [h1, h2]
  · intro client repository_id target h
    have hc : perTargetCallers client repository_id target = [] := by
      unfold perTargetCallers
      cases hrel : client.get_code_relationships repository_id (some target) <;> simp [h]
    have hch : perTargetChains client repository_id target = [] := by
      unfold perTargetChains
      cases hrel : client.get_code_relationships repository_id (some target) <;>
        simp [h, buildCallChains]
    simp only [analyze]
    rw [List.foldl_cons, List.foldl_nil, analyzeStep_eq, hc, hch]
    rfl

/-- Witness for C8 at a concrete client whose call-edge set is empty. -/
theorem c8_witness :
    analyze emptyClient "r" ["t"] =
      { affected_functions := [], affected_services := []
        affected_dependencies := [], call_chains := [], risk_level := "low"
        recommendations :=
          ["Run full test suite after changes", "Update documentation"] } :=
  c8_recommendations_order.2 emptyClient "r" "t" rfl

/-- C9: `analyze` is total (it never propagates a per-target fetch error),
each target contributes exactly its own callers and chains — an empty
contribution when its relationships fetch fails — and dropping a target
whose relationships fetch fails leaves the result of `analyze` unchanged:
the remaining targets are still processed. -/
theorem c9_per_target_isolation :
    (∀ (client : Client) (repository_id : String) (targets : List String),
        (analyze client repository_id targets).affected_functions =
            targets.flatMap (perTargetCallers client repository_id) ∧
          (analyze client repository_id targets).call_chains =
            targets.flatMap (perTargetChains client repository_id)) ∧
    (∀ (client : Client) (repository_id t : String) (ts : List String) (e : String),
        client.get_code_relationships repository_id (some t) = .error e →
        analyze client repository_id (t :: ts) = analyze client repository_id ts) := by
  constructor
  · intro client repository_id targets
    simp only [analyze]
    rw [analyze_foldl]
    constructor <;> simp
  · intro client repository_id t ts e he
    have hstep : ∀ acc : Impact, analyzeStep client repository_id acc t = acc := by
      intro acc; unfold analyzeStep; rw [he]
    simp only [analyze]
    rw [List.foldl_cons, hstep]

/-- Witness for C9 at a concrete client whose relationships fetch fails. -/
theorem c9_witness :
    analyze relFailClient "r" ["a", "b"] = analyze relFailClient "r" ["b"] :=
  c9_per_target_isolation.2 relFailClient "r" "a" ["b"] "down" rfl

/-!  ## Theorems about the upward call traversal  -/

/-- The fuelled traversal agrees with `traverseUp` whenever the fuel exceeds
the distance `6 - path.length` to the depth ceiling — for every client, so
in particular on cyclic caller graphs: the recursion depth of
`_traverse_up` is bounded by the growth of `path` alone. -/
lemma traverseUpF_eq (client : Client) (repo_id : String) :
    ∀ (fuel : Nat) (element_id : Option String) (path : List (Option String)),
      6 - path.length < fuel →
      traverseUpF client repo_id fuel element_id path =
        some (traverseUp client repo_id element_id path) := by
  intro fuel
  induction fuel with
  | zero => intro eid path h; exact absurd h (Nat.not_lt_zero _)
  | succ fuel ih =>
      intro eid path h
      unfold traverseUpF traverseUp
      by_cases hlen : path.length > 5
      · simp [hlen]
      · simp only [hlen, if_false, dif_neg]
        cases hcal : findCallers client repo_id eid with
        | nil => rfl
        | cons next_caller rest =>
            exact ih next_caller.id (path ++ [next_caller.name])
              (by simp only [List.length_append, List.length_cons, List.length_nil]; omega)

/-- Any list the fuelled traversal returns is no longer than
`max path.length 6`. -/
lemma traverseUpF_length (client : Client) (repo_id : String) :
    ∀ (fuel : Nat) (element_id : Option String) (path res : List (Option String)),
      traverseUpF client repo_id fuel element_id path = some res →
      res.length ≤ max path.length 6 := by
  intro fuel
  induction fuel with
  | zero => intro eid path res h; simp [traverseUpF] at h
  | succ fuel ih =>
      intro eid path res h
      unfold traverseUpF at h
      by_cases hlen : path.length > 5
      · rw [if_pos hlen] at h
        obtain rfl := Option.some.inj h
        exact Nat.le_max_left _ _
      · rw [if_neg hlen] at h
        cases hcal : findCallers client repo_id eid with
        | nil =>
            rw [hcal] at h
            obtain rfl := Option.some.inj h
            exact Nat.le_max_left _ _
        | cons next_caller rest =>
            rw [hcal] at h
            have := ih next_caller.id (path ++ [next_caller.name]) res h
            simp only [List.length_append, List.length_cons, List.length_nil] at this
            omega

/-- `traverseUp` never returns more than 6 entries when started from a path
of at most 6 entries. -/
lemma traverseUp_length_le (client : Client) (repo_id : String)
    (element_id : Option String) (path : List (Option String))
    (h : path.length ≤ 6) :
    (traverseUp client repo_id element_id path).length ≤ 6 := by
  have h7 : 6 - path.length < 7 := by omega
  have heq := traverseUpF_eq client repo_id 7 element_id path h7
  have hb := traverseUpF_length client repo_id 7 element_id path _ heq
  omega

/-- On the cyclic caller graph of `cycClient`, the upward traversal from
`A` returns a path of six copies of `A`. -/
lemma cyc_traverse :
    traverseUp cycClient "r" (some "A") [some "A"] = List.replicate 6 (some "A") := by
  have h := traverseUpF_eq cycClient "r" 6 (some "A") [some "A"] (by decide)
  have h2 : traverseUpF cycClient "r" 6 (some "A") [some "A"] =
      some (List.replicate 6 (some "A")) := by decide
  exact Option.some.inj (h.symm.trans h2)

/-- The chain list `_build_call_chains` produces on `cycClient`. -/
lemma cyc_chains :
    buildCallChains cycClient "r" (some "t") (findCallers cycClient "r" (some "t")) =
      [{ path := List.replicate 6 (some "A"), depth := 6 }] := by
  have hfc : findCallers cycClient "r" (some "t") = [callerA] := by decide
  have hstep :
      (let chain := traverseUp cycClient "r" callerA.id [callerA.name]
       if chain.isEmpty then none
       else some { path := chain, depth := chain.length : Chain }) =
        some { path := List.replicate 6 (some "A"), depth := 6 } := by
    show (let chain := traverseUp cycClient "r" (some "A") [some "A"]
          if chain.isEmpty then none
          else some { path := chain, depth := chain.length : Chain }) = _
    simp only [cyc_traverse]
    decide
  unfold buildCallChains
  rw [hfc]
  simp only [List.take_succ_cons, List.take_nil, List.filterMap_cons,
    List.filterMap_nil, hstep]

/-- C2 counterexample: on the cyclic caller graph of `cycClient`, the chain
built for target `t` has 6 path entries and reported depth 6, exceeding the
claimed cap of 5 — `_traverse_up` returns only once `len(path) > 5`. -/
theorem c2_counterexample :
    ¬ ∀ chain ∈ buildCallChains cycClient "r" (some "t")
        (findCallers cycClient "r" (some "t")),
      chain.path.length ≤ 5 ∧ chain.depth ≤ 5 := by
  simp only [cyc_chains]
  decide

/-- C2 amended: every chain produced by `buildCallChains` has a path of at
most 6 entries, and its reported depth is likewise at most 6 (the recursion
returns only once the accumulated path has grown past 5 entries, i.e. at 6). -/
theorem c2_chain_cap (client : Client) (repo_id : String)
    (element_id : Option String) (callers : List Caller) (chain : Chain)
    (h : chain ∈ buildCallChains client repo_id element_id callers) :
    chain.path.length ≤ 6 ∧ chain.depth ≤ 6 := by
  unfold buildCallChains at h
  obtain ⟨caller, hmem, hf⟩ := List.mem_filterMap.mp h
  dsimp only at hf
  by_cases he : (traverseUp client repo_id caller.id [caller.name]).isEmpty
  · rw [if_pos he] at hf; cases hf
  · rw [if_neg he] at hf
    obtain rfl := Option.some.inj hf
    have hb := traverseUp_length_le client repo_id caller.id [caller.name] (by simp)
    exact ⟨hb, hb⟩

/-- The chain list `_build_call_chains` produces on `singleCallerClient`. -/
lemma single_chains :
    buildCallChains singleCallerClient "r" (some "t")
        (findCallers singleCallerClient "r" (some "t")) =
      [{ path := [some "B"], depth := 1 }] := by
  have hB : traverseUp singleCallerClient "r" (some "B") [some "B"] = [some "B"] := by
    have h := traverseUpF_eq singleCallerClient "r" 6 (some "B") [some "B"] (by decide)
    have h2 : traverseUpF singleCallerClient "r" 6 (some "B") [some "B"] =
        some [some "B"] := by decide
    exact Option.some.inj (h.symm.trans h2)
  have hfc : findCallers singleCallerClient "r" (some "t") = [callerB] := by decide
  have hstep :
      (let chain := traverseUp singleCallerClient "r" callerB.id [callerB.name]
       if chain.isEmpty then none
       else some { path := chain, depth := chain.length : Chain }) =
        some { path := [some "B"], depth := 1 } := by
    show (let chain := traverseUp singleCallerClient "r" (some "B") [some "B"]
          if chain.isEmpty then none
          else some { path := chain, depth := chain.length : Chain }) = _
    simp only [hB]
    decide
  unfold buildCallChains
  rw [hfc]
  simp only [List.take_succ_cons, List.take_nil, List.filterMap_cons,
    List.filterMap_nil, hstep]

/-- Witness for C2 (amended) at the concrete chain of `singleCallerClient`. -/
theorem c2_cap_witness :
    ({ path := [some "B"], depth := 1 } : Chain).path.length ≤ 6 ∧
      ({ path := [some "B"], depth := 1 } : Chain).depth ≤ 6 :=
  c2_chain_cap singleCallerClient "r" (some "t")
    (findCallers singleCallerClient "r" (some "t")) _
    (by rw [single_chains]; exact List.mem_singleton.mpr rfl)

/-- C5: the recursion of `_traverse_up` is well-founded on every caller
graph, cyclic ones included: the fuelled unfolding with any fuel exceeding
`6 - path.length` already reaches the answer of the total function
`traverseUp`, so `buildCallChains` (which starts each traversal at a
one-entry path) terminates after at most 6 nested calls per caller. -/
theorem c5_traverse_terminates (client : Client) (repo_id : String) (fuel : Nat)
    (element_id : Option String) (path : List (Option String))
    (h : 6 - path.length < fuel) :
    traverseUpF client repo_id fuel element_id path =
      some (traverseUp client repo_id element_id path) :=
  traverseUpF_eq client repo_id fuel element_id path h

/-- Witness for C5 on the cyclic caller graph of `cycClient`. -/
theorem c5_witness :
    traverseUpF cycClient "r" 6 (some "A") [some "A"] =
      some (traverseUp cycClient "r" (some "A") [some "A"]) :=
  c5_traverse_terminates cycClient "r" 6 (some "A") [some "A"] (by decide)

/-!  ## Theorems about the context builder  -/

lemma countType_append (a b : List Source) (t : String) :
    countType (a ++ b) t = countType a t + countType b t := by
  simp [countType, List.filter_append]

lemma countType_le_length (l : List Source) (t : String) : countType l t ≤ l.length :=
  List.length_filter_le _ _

lemma countType_eq_zero (l : List Source) (ty t : String)
    (h : ∀ s ∈ l, s.type = ty) (hne : ty ≠ t) : countType l t = 0 := by
  unfold countType
  rw [List.filter_eq_nil_iff.mpr fun a ha => by simp [h a ha, hne]]
  rfl

lemma generalCodeSources_type (topics entities : List String) (mr : Nat)
    (ces : List CodeElement) :
    ∀ s ∈ generalCodeSources topics entities mr ces, s.type = "code_element" := by
  intro s hs
  unfold generalCodeSources at hs
  obtain ⟨e, hmem, hf⟩ := List.mem_filterMap.mp hs
  dsimp only at hf
  split_ifs at hf <;> cases hf <;> rfl

lemma generalServiceSources_type (mr : Nat) (svcs : List Service) :
    ∀ s ∈ generalServiceSources mr svcs, s.type = "service" := by
  intro s hs
  unfold generalServiceSources at hs
  obtain ⟨v, hv, rfl⟩ := List.mem_map.mp hs
  rfl

lemma generalDependencySources_type (mr : Nat) (deps : List Dependency) :
    ∀ s ∈ generalDependencySources mr deps, s.type = "dependency" := by
  intro s hs
  unfold generalDependencySources at hs
  obtain ⟨v, hv, rfl⟩ := List.mem_map.mp hs
  rfl

lemma generalTestSources_type (topics entities : List String) (mr : Nat)
    (tests : List TestRec) :
    ∀ s ∈ generalTestSources topics entities mr tests, s.type = "test" := by
  intro s hs
  unfold generalTestSources at hs
  by_cases hemp : tests.isEmpty
  · rw [if_pos hemp] at hs; cases hs
  · rw [if_neg hemp] at hs
    obtain ⟨e, hmem, hf⟩ := List.mem_filterMap.mp hs
    dsimp only at hf
    split_ifs at hf <;> cases hf <;> rfl

lemma generalDocSources_type (topics entities : List String) (mr : Nat)
    (docs : List DocRec) :
    ∀ s ∈ generalDocSources topics entities mr docs, s.type = "documentation" := by
  intro s hs
  unfold generalDocSources at hs
  by_cases hemp : docs.isEmpty
  · rw [if_pos hemp] at hs; cases hs
  · rw [if_neg hemp] at hs
    obtain ⟨e, hmem, hf⟩ := List.mem_filterMap.mp hs
    dsimp only at hf
    split_ifs at hf <;> cases hf <;> rfl

lemma generalCodeSources_length (topics entities : List String) (mr : Nat)
    (ces : List CodeElement) :
    (generalCodeSources topics entities mr ces).length ≤ mr / 3 :=
  le_trans (List.length_filterMap_le _ _) (List.length_take_le _ _)

lemma generalServiceSources_length (mr : Nat) (svcs : List Service) :
    (generalServiceSources mr svcs).length ≤ mr / 3 := by
  unfold generalServiceSources
  rw [List.length_map]
  exact List.length_take_le _ _

lemma generalDependencySources_length (mr : Nat) (deps : List Dependency) :
    (generalDependencySources mr deps).length ≤ mr / 3 := by
  unfold generalDependencySources
  rw [List.length_map]
  exact List.length_take_le _ _

lemma generalTestSources_length (topics entities : List String) (mr : Nat)
    (tests : List TestRec) :
    (generalTestSources topics entities mr tests).length ≤ mr / 5 := by
  unfold generalTestSources
  by_cases hemp : tests.isEmpty
  · rw [if_pos hemp]; simp
  · rw [if_neg hemp]
    exact le_trans (List.length_filterMap_le _ _) (List.length_take_le _ _)

lemma generalDocSources_length (topics entities : List String) (mr : Nat)
    (docs : List DocRec) :
    (generalDocSources topics entities mr docs).length ≤ mr / 5 := by
  unfold generalDocSources
  by_cases hemp : docs.isEmpty
  · rw [if_pos hemp]; simp
  · rw [if_neg hemp]
    exact le_trans (List.length_filterMap_le _ _) (List.length_take_le _ _)

/-- C1: dispatching `build` on the `GENERAL` intent raises
`AttributeError` — the guard `intent_type == QueryIntent.FIND_TESTS` reads
a member the enum does not define — so the build fails for every client and
`max_results`; the general strategy itself (were it reachable) does respect
the claimed slice bounds at `max_results = 9`: at most 3 code elements, 3
services, 3 dependencies, 1 test and 1 documentation source. -/
theorem c1_general_build_raises :
    (∀ (client : Client) (repository_id : String) (entities topics : List String)
        (original_query : String) (max_results : Nat) (include_graph : Bool),
        build client repository_id
            { intent := QueryIntent.GENERAL, entities := entities, topics := topics
              original_query := original_query } max_results include_graph =
          .error "AttributeError: FIND_TESTS") ∧
    (∀ (client : Client) (repository_id : String) (topics entities : List String),
        countType (buildGeneralContext client repository_id topics entities 9).sources
            "code_element" ≤ 3 ∧
          countType (buildGeneralContext client repository_id topics entities 9).sources
            "service" ≤ 3 ∧
          countType (buildGeneralContext client repository_id topics entities 9).sources
            "dependency" ≤ 3 ∧
          countType (buildGeneralContext client repository_id topics entities 9).sources
            "test" ≤ 1 ∧
          countType (buildGeneralContext client repository_id topics entities 9).sources
            "documentation" ≤ 1) := by
  constructor
  · intro client repository_id entities topics original_query max_results include_graph
    rfl
  · intro client repository_id topics entities
    rcases hce : client.get_code_elements repository_id with e | ces
    · simp [buildGeneralContext, hce, countType]
    rcases hsv : client.get_services repository_id with e | svcs
    · simp [buildGeneralContext, hce, hsv, countType]
    rcases hdp : client.get_dependencies repository_id with e | deps
    · simp [buildGeneralContext, hce, hsv, hdp, countType]
    obtain ⟨testsv, docsv, hsrc⟩ :
        ∃ (tl : List TestRec) (dl : List DocRec),
          (buildGeneralContext client repository_id topics entities 9).sources =
            generalCodeSources topics entities 9 ces ++
              generalServiceSources 9 svcs ++
              generalDependencySources 9 deps ++
              generalTestSources topics entities 9 tl ++
              generalDocSources topics entities 9 dl := by
      refine ⟨(match client.get_tests repository_id with
                | .ok t => t | .error _ => []),
              (match client.get_documentation repository_id with
                | .ok d => d | .error _ => []), ?_⟩
      unfold buildGeneralContext
      rw [hce, hsv, hdp]
    rw [hsrc]
    simp only [countType_append]
    refine ⟨?_, ?_, ?_, ?_, ?_⟩
    · have h1 := (countType_le_length _ "code_element").trans
        (generalCodeSources_length topics entities 9 ces)
      have h2 := countType_eq_zero _ "service" "code_element"
        (generalServiceSources_type 9 svcs) (by decide)
      have h3 := countType_eq_zero _ "dependency" "code_element"
        (generalDependencySources_type 9 deps) (by decide)
      have h4 := countType_eq_zero _ "test" "code_element"
        (generalTestSources_type topics entities 9 testsv) (by decide)
      have h5 := countType_eq_zero _ "documentation" "code_element"
        (generalDocSources_type topics entities 9 docsv) (by decide)
      omega
    · have h1 := countType_eq_zero _ "code_element" "service"
        (generalCodeSources_type topics entities 9 ces) (by decide)
      have h2 := (countType_le_length _ "service").trans
        (generalServiceSources_length 9 svcs)
      have h3 := countType_eq_zero _ "dependency" "service"
        (generalDependencySources_type 9 deps) (by decide)
      have h4 := countType_eq_zero _ "test" "service"
        (generalTestSources_type topics entities 9 testsv) (by decide)
      have h5 := countType_eq_zero _ "documentation" "service"
        (generalDocSources_type topics entities 9 docsv) (by decide)
      omega
    · have h1 := countType_eq_zero _ "code_element" "dependency"
        (generalCodeSources_type topics entities 9 ces) (by decide)
      have h2 := countType_eq_zero _ "service" "dependency"
        (generalServiceSources_type 9 svcs) (by decide)
      have h3 := (countType_le_length _ "dependency").trans
        (generalDependencySources_length 9 deps)
      have h4 := countType_eq_zero _ "test" "dependency"
        (generalTestSources_type topics entities 9 testsv) (by decide)
      have h5 := countType_eq_zero _ "documentation" "dependency"
        (generalDocSources_type topics entities 9 docsv) (by decide)
      omega
    · have h1 := countType_eq_zero _ "code_element" "test"
        (generalCodeSources_type topics entities 9 ces) (by decide)
      have h2 := countType_eq_zero _ "service" "test"
        (generalServiceSources_type 9 svcs) (by decide)
      have h3 := countType_eq_zero _ "dependency" "test"
        (generalDependencySources_type 9 deps) (by decide)
      have h4 := (countType_le_length _ "test").trans
        (generalTestSources_length topics entities 9 testsv)
      have h5 := countType_eq_zero _ "documentation" "test"
        (generalDocSources_type topics entities 9 docsv) (by decide)
      omega
    · have h1 := countType_eq_zero _ "code_element" "documentation"
        (generalCodeSources_type topics entities 9 ces) (by decide)
      have h2 := countType_eq_zero _ "service" "documentation"
        (generalServiceSources_type 9 svcs) (by decide)
      have h3 := countType_eq_zero _ "dependency" "documentation"
        (generalDependencySources_type 9 deps) (by decide)
      have h4 := countType_eq_zero _ "test" "documentation"
        (generalTestSources_type topics entities 9 testsv) (by decide)
      have h5 := (countType_le_length _ "documentation").trans
        (generalDocSources_length topics entities 9 docsv)
      omega

/-- C3 counterexample: with the services fetch failing and the code-element
fetch succeeding with one element, the general strategy returns no sources
at all — the code-element slice is lost along with the service slice. -/
theorem c3_counterexample :
    svcFailClient.get_services "r" = .error "boom" ∧
      svcFailClient.get_code_elements "r" = .ok [exElem] ∧
      (buildGeneralContext svcFailClient "r" [] [] 9).sources = [] :=
  ⟨rfl, rfl, rfl⟩

/-- C3 amended: in the general strategy only the tests and documentation
fetches are independently guarded — failing either degrades exactly that
slice (the result equals the one for an empty fetch) — while a failure of
the code-elements, services or dependencies fetch empties the whole source
list, sibling slices included. -/
theorem c3_guarding :
    (∀ (client : Client) (repository_id : String) (topics entities : List String)
        (max_results : Nat),
        ((∃ e, client.get_code_elements repository_id = .error e) ∨
          (∃ e, client.get_services repository_id = .error e) ∨
          (∃ e, client.get_dependencies repository_id = .error e)) →
        buildGeneralContext client repository_id topics entities max_results =
          { sources := [], related := {} }) ∧
    (∀ (client : Client) (repository_id : String) (topics entities : List String)
        (max_results : Nat) (e : String),
        buildGeneralContext { client with get_tests := fun _ => .error e }
            repository_id topics entities max_results =
          buildGeneralContext { client with get_tests := fun _ => .ok [] }
            repository_id topics entities max_results) ∧
    (∀ (client : Client) (repository_id : String) (topics entities : List String)
        (max_results : Nat) (e : String),
        buildGeneralContext { client with get_documentation := fun _ => .error e }
            repository_id topics entities max_results =
          buildGeneralContext { client with get_documentation := fun _ => .ok [] }
            repository_id topics entities max_results) := by
  refine ⟨?_, ?_, ?_⟩
  · intro client repository_id topics entities max_results h
    unfold buildGeneralContext
    rcases h with ⟨e, he⟩ | ⟨e, he⟩ | ⟨e, he⟩
    · rw [he]
    · rw [he]
      rcases hce : client.get_code_elements repository_id with e2 | ces <;> rfl
    · rw [he]
      rcases hce : client.get_code_elements repository_id with e2 | ces
      · rfl
      · rcases hsv : client.get_services repository_id with e3 | svcs <;> rfl
  · intro client repository_id topics entities max_results e
    rfl
  · intro client repository_id topics entities max_results e
    rfl

/-- Witness for C3 (amended) at the concrete failing-services client. -/
theorem c3_witness :
    buildGeneralContext svcFailClient "r" [] [] 9 = { sources := [], related := {} } :=
  c3_guarding.1 svcFailClient "r" [] [] 9 (Or.inr (Or.inl ⟨"boom", rfl⟩))

/-- A code element passing the function-context filter has a present,
nonempty `file_path` (the `if not file_path: continue` guard). -/
lemma functionElementKeep_file_path {topics fe : List String} {elem : CodeElement}
    (h : functionElementKeep topics fe elem = true) :
    ∃ fp, elem.file_path = some fp ∧ fp ≠ "" := by
  unfold functionElementKeep at h
  rcases hfp : elem.file_path with _ | fp
  · rw [hfp] at h
    simp at h
  · by_cases hempty : fp = ""
    · subst hempty
      rw [hfp] at h
      simp at h
    · exact ⟨fp, rfl, hempty⟩

/-- C10: every source emitted by the function-context strategy carries a
present, nonempty `file_path` — elements whose `file_path` is missing or
empty are filtered out before slicing, whatever the topic or entity match. -/
theorem c10_empty_file_path_excluded (client : Client) (repository_id : String)
    (topics entities : List String) (max_results : Nat) (src : Source)
    (h : src ∈ (buildFunctionContext client repository_id topics entities
        max_results).sources) :
    ∃ fp, src.file_path = some fp ∧ fp ≠ "" := by
  unfold buildFunctionContext at h
  rcases hce : client.get_code_elements repository_id with e | ces
  · rw [hce] at h
    simp at h
  · rw [hce] at h
    dsimp only at h
    obtain ⟨elem, hmem, rfl⟩ := List.mem_map.mp h
    have hkeep : functionElementKeep topics
        (entities.filter fun e => !functionCommonWords.contains (pyLower e)) elem
          = true :=
      (List.mem_filter.mp (List.mem_of_mem_take hmem)).2
    obtain ⟨fp, hfp, hne⟩ := functionElementKeep_file_path hkeep
    refine ⟨fp, ?_, hne⟩
    show elem.file_path = some fp
    exact hfp

/-- Witness for C10 at a concrete client with one good function element. -/
theorem c10_witness :
    ∃ fp,
      ({ type := "code_element", id := some "e1", name := some "foo"
         file_path := some "src/foo.py" : Source }).file_path = some fp ∧ fp ≠ "" :=
  c10_empty_file_path_excluded funClient "r" [] [] 10 _ (by decide)
